import Mathlib

/-!
Verification development for the PromptAR backend (`src/backend`).

The Python services are shallowly embedded as executable Lean definitions:

* `services/ar_material_service.py` — the material brightness normalizer
  (`BRIGHTNESS_CONFIG`, `normalize_gltf_materials`), modelled over materials
  whose numeric factors are rationals (the Python floats of the source carry
  exact decimal constants such as 0.1, 1.5, 0.3; the claims under study are
  about the clamping/boost structure, which is identical over ℚ).
* `services/huggingface_service.py` — the GLB structure verifier
  (`_verify_glb_structure`), the fallback material injection
  (`_add_basic_material`) and the TRELLIS result normalization inside
  `text_to_3d`.
* `services/storage_service.py` — the in-memory model record store.
* `routers/models.py` — `sanitize_error_message`, the `generate_model`
  endpoint body, `download_model` and `cleanup_model_file`.
* `schemas/models.py` — `PromptRequest` (which declares only `prompt`).

Exceptions are modelled by explicit outcome types; the in-memory registry and
the artifact directory are explicit state threaded through the functions.
-/

/-! ## BRIGHTNESS_CONFIG (services/ar_material_service.py, lines 22-29) -/

/-- `BRIGHTNESS_CONFIG["metallic_threshold"]`: any metallicFactor above this becomes the target. -/
def metallic_threshold : ℚ := 1/10

/-- `BRIGHTNESS_CONFIG["metallic_target"]`. -/
def metallic_target : ℚ := 0

/-- `BRIGHTNESS_CONFIG["roughness_min"]`. -/
def roughness_min : ℚ := 9/10

/-- `BRIGHTNESS_CONFIG["base_color_boost"]`. -/
def base_color_boost : ℚ := 3/2

/-- `BRIGHTNESS_CONFIG["emissive_base"]`. -/
def emissive_base : ℚ := 3/10

/-- `BRIGHTNESS_CONFIG["emissive_max"]`. -/
def emissive_max : ℚ := 1/2

/-! ## Material data model (pygltflib `Material` / `PbrMetallicRoughness`,
as consumed by the services; fields not read by the embedded code are omitted). -/

/-- The pbrMetallicRoughness component of a glTF material.  Every field is
optional, as in pygltflib (`None` in Python is `none` here).  `baseColorTexture`
is modelled by the index it carries; the code only tests it against `None`. -/
structure PbrMetallicRoughness where
  metallicFactor : Option ℚ
  roughnessFactor : Option ℚ
  baseColorFactor : Option (List ℚ)
  baseColorTexture : Option Nat
deriving DecidableEq, Repr

/-- A glTF material: an optional pbrMetallicRoughness block and an optional
emissive factor. -/
structure Material where
  pbrMetallicRoughness : Option PbrMetallicRoughness
  emissiveFactor : Option (List ℚ)
deriving DecidableEq, Repr

/-! ## normalize_gltf_materials (services/ar_material_service.py, lines 36-137) -/

/-- The base-color boost of `normalize_gltf_materials`: when the list has at
least three entries, each RGB channel becomes `min 1 (channel * boost)` and the
fourth entry (alpha) is kept, `1` being supplied when the list had exactly three
entries; shorter lists are left alone (the `len(base_color) >= 3` guard).
The source assigns the boosted list only when it differs from the original,
which never changes the resulting value. -/
def boostBaseColor : List ℚ → List ℚ
  | r :: g :: b :: rest =>
      [min 1 (r * base_color_boost), min 1 (g * base_color_boost),
       min 1 (b * base_color_boost),
       match rest with
       | a :: _ => a
       | [] => 1]
  | l => l

/-- The emissive boost of `normalize_gltf_materials`: when the list has at
least three entries, each becomes `min emissive_max (channel + emissive_base)`
(entries beyond the third are dropped, as in the source, which always builds a
three-entry list); shorter lists are left alone. -/
def boostEmissive : List ℚ → List ℚ
  | x :: y :: z :: _ =>
      [min emissive_max (x + emissive_base), min emissive_max (y + emissive_base),
       min emissive_max (z + emissive_base)]
  | l => l

/-- The pbr part of one iteration of `normalize_gltf_materials`:
metallic clamp, roughness floor (the source writes `max r roughness_min` under
the guard `r < roughness_min`), base-color default / boost. -/
def normalizePbr (pbr : PbrMetallicRoughness) : PbrMetallicRoughness :=
  { metallicFactor :=
      match pbr.metallicFactor with
      | some m => some (if m > metallic_threshold then metallic_target else m)
      | none => none
    roughnessFactor :=
      match pbr.roughnessFactor with
      | some r => some (if r < roughness_min then max r roughness_min else r)
      | none => none
    baseColorFactor :=
      match pbr.baseColorFactor with
      | none => some [1, 1, 1, 1]
      | some bc => some (boostBaseColor bc)
    baseColorTexture := pbr.baseColorTexture }

/-- One material of `normalize_gltf_materials`: the pbr block, when present, is
normalized; the emissive factor is defaulted to the base glow when absent and
boosted otherwise. -/
def normalizeMaterial (m : Material) : Material :=
  { pbrMetallicRoughness := m.pbrMetallicRoughness.map normalizePbr
    emissiveFactor :=
      match m.emissiveFactor with
      | none => some [emissive_base, emissive_base, emissive_base]
      | some e => some (boostEmissive e) }

/-- `normalize_gltf_materials`: every material of the scene is normalized
(the `if gltf.materials:` guard is the identity on the empty list). -/
def normalize_gltf_materials (materials : List Material) : List Material :=
  materials.map normalizeMaterial

/-- Base color of a material, through the optional pbr block. -/
def getBaseColor (m : Material) : Option (List ℚ) :=
  m.pbrMetallicRoughness.bind (·.baseColorFactor)

/-- Metallic factor of a material, through the optional pbr block. -/
def getMetallic (m : Material) : Option ℚ :=
  m.pbrMetallicRoughness.bind (·.metallicFactor)

/-- Roughness factor of a material, through the optional pbr block. -/
def getRoughness (m : Material) : Option ℚ :=
  m.pbrMetallicRoughness.bind (·.roughnessFactor)

/-! ## GLB structure verification (services/huggingface_service.py,
`_verify_glb_structure` lines 213-321 and `_add_basic_material` lines 477-529). -/

/-- One glTF mesh primitive: whether it carries a `COLOR_0` attribute
(modelled by the accessor index it would hold) and its material index. -/
structure Primitive where
  color0 : Option Nat
  material : Option Nat
deriving DecidableEq, Repr

/-- A glTF mesh: its primitives. -/
structure Mesh where
  primitives : List Primitive
deriving DecidableEq, Repr

/-- The parts of a loaded glTF document read by `_verify_glb_structure` and
`_add_basic_material`: images, textures and accessors only by their count,
materials and meshes in full. -/
structure GltfDoc where
  images : Nat
  textures : Nat
  accessors : Nat
  materials : List Material
  meshes : List Mesh
deriving DecidableEq, Repr

/-- Whether a material references a base-color texture: the source counts a
material when its pbr block exists and `pbr.baseColorTexture is not None`. -/
def materialHasTexture (m : Material) : Bool :=
  match m.pbrMetallicRoughness with
  | some pbr => pbr.baseColorTexture.isSome
  | none => false

/-- `materials_with_textures` of `_verify_glb_structure`. -/
def materials_with_textures (g : GltfDoc) : Nat :=
  (g.materials.filter materialHasTexture).length

/-- `has_vertex_colors` of `_verify_glb_structure`: some primitive of some mesh
has a `COLOR_0` attribute; the source only scans when both `gltf.meshes` and
`gltf.accessors` are non-empty. -/
def has_vertex_colors (g : GltfDoc) : Bool :=
  if g.meshes ≠ [] ∧ g.accessors ≠ 0 then
    g.meshes.any (fun mesh => mesh.primitives.any (fun p => p.color0.isSome))
  else false

/-- `has_textures` as computed at line 288 of `_verify_glb_structure`:
`textures_count > 0 and materials_with_textures > 0`. -/
def verifyHasTextures (g : GltfDoc) : Bool :=
  decide (0 < g.textures) && decide (0 < materials_with_textures g)

/-- The `structure_info` dictionary built by `_verify_glb_structure`. -/
structure StructureInfo where
  images : Nat
  textures : Nat
  materials : Nat
  meshes : Nat
  accessors : Nat
  materialsWithTextures : Nat
  hasVertexColors : Bool
deriving DecidableEq, Repr

/-- The populated `structure_info` of a successfully inspected document. -/
def mkStructureInfo (g : GltfDoc) : StructureInfo :=
  { images := g.images
    textures := g.textures
    materials := g.materials.length
    meshes := g.meshes.length
    accessors := g.accessors
    materialsWithTextures := materials_with_textures g
    hasVertexColors := has_vertex_colors g }

/-- What happens when `_verify_glb_structure` tries to obtain a document for a
path: the pygltflib import may fail (`noLib`), `GLTF2.load` or the inspection
may raise (`loadError`), or a document is obtained (`ok`). -/
inductive GlbLoadResult where
  | noLib
  | loadError (msg : String)
  | ok (g : GltfDoc)
deriving DecidableEq, Repr

/-- `_verify_glb_structure`: total over every load outcome.  The two `except`
arms (`ImportError`, any other `Exception`) both return `(False, {})` — the
empty dictionary is `none` here — instead of propagating the exception. -/
def verify_glb_structure : GlbLoadResult → Bool × Option StructureInfo
  | .noLib => (false, none)
  | .loadError _ => (false, none)
  | .ok g => (verifyHasTextures g, some (mkStructureInfo g))

/-- The fallback material created by `_add_basic_material`: light gray base
color, non-metallic, medium roughness, no texture reference, no emissive
factor (the source also sets `name` and `doubleSided`, which nothing here
reads). -/
def basic_material : Material :=
  { pbrMetallicRoughness :=
      some { metallicFactor := some 0
             roughnessFactor := some (1/2)
             baseColorFactor := some [7/10, 7/10, 7/10, 1]
             baseColorTexture := none }
    emissiveFactor := none }

/-- `_add_basic_material`: append the fallback material (creating the list when
it was `None`) and point every primitive of every mesh at its index. -/
def add_basic_material (g : GltfDoc) : GltfDoc :=
  let materials := g.materials ++ [basic_material]
  let idx := materials.length - 1
  { g with
    materials := materials
    meshes := g.meshes.map (fun mesh =>
      { primitives := mesh.primitives.map (fun p => { p with material := some idx }) }) }

/-! ## Artifact store (services/storage_service.py). -/

/-- A generation record as stored by `StorageService.create_model_record`
(`model_id` is the association key, `created_at` is never read by the
embedded code and is omitted). -/
structure ModelRecord where
  prompt : String
  status : String
  file_path : Option String
  available_formats : List String
deriving DecidableEq, Repr

/-- The in-memory `_models` table: an association list from model id to
record (Python dict keyed by fresh uuid4 ids). -/
abbrev Store := List (String × ModelRecord)

/-- `create_model_record` with the freshly generated uuid passed in
explicitly: a new record in `processing` state with no file and no formats. -/
def create_model_record (store : Store) (model_id prompt : String) : Store :=
  store ++ [(model_id, { prompt := prompt, status := "processing",
                         file_path := none, available_formats := [] })]

/-- `update_model_status`: overwrite the status when the id is known, no-op
otherwise. -/
def update_model_status (store : Store) (model_id status : String) : Store :=
  store.map (fun p => if p.1 = model_id then (p.1, { p.2 with status := status }) else p)

/-- `set_model_file`: set the file path and add the format tag when the id
is known, no-op otherwise (the source goes through a `set`, so a format
already present is not duplicated). -/
def set_model_file (store : Store) (model_id file_path fmt : String) : Store :=
  store.map (fun p =>
    if p.1 = model_id then
      (p.1, { p.2 with
              file_path := some file_path
              available_formats :=
                if fmt ∈ p.2.available_formats then p.2.available_formats
                else p.2.available_formats ++ [fmt] })
    else p)

/-- `get_model`: the record of an id, when present. -/
def get_model (store : Store) (model_id : String) : Option ModelRecord :=
  (store.find? (fun p => p.1 == model_id)).map (·.2)

/-! ## sanitize_error_message (routers/models.py, lines 24-55). -/

/-- Whether the first character list is a prefix of the second. -/
def charsAgree : List Char → List Char → Bool
  | [], _ => true
  | _ :: _, [] => false
  | a :: as, b :: bs => a == b && charsAgree as bs

/-- Whether the needle occurs as a contiguous run of the haystack. -/
def charsContain (needle : List Char) : List Char → Bool
  | [] => needle.isEmpty
  | b :: bs => charsAgree needle (b :: bs) || charsContain needle bs

/-- Python `needle in haystack` over strings. -/
def strContains (haystack needle : String) : Bool :=
  charsContain needle.toList haystack.toList

/-- ASCII `str.lower()`: uppercase ASCII letters are shifted down; the
embedded code only lowercases mode names and error text, where Python's
lowering agrees with the ASCII one. -/
def lowerChar (c : Char) : Char :=
  if 65 ≤ c.toNat ∧ c.toNat ≤ 90 then Char.ofNat (c.toNat + 32) else c

/-- ASCII `str.lower()` over a whole string. -/
def lowerString (s : String) : String := String.mk (s.data.map lowerChar)

/-- Sanitized message for GPU-quota/busy errors. -/
def msg_quota : String := "The AI service is currently busy. Please try again in a few minutes."

/-- Sanitized message for timeouts. -/
def msg_timeout : String := "The request took too long. Please try again with a simpler prompt."

/-- Sanitized message for a sleeping/unavailable Space. -/
def msg_space : String := "The AI service is temporarily unavailable. Please try again later."

/-- Sanitized message for queue/busy errors. -/
def msg_queue : String := "The service is busy. Please try again in a moment."

/-- Sanitized message for network errors. -/
def msg_network : String := "Network error occurred. Please check your connection and try again."

/-- Generic sanitized fallback message. -/
def msg_generic : String := "Model generation failed. Please try again or use a different prompt."

/-- The six user-safe messages `sanitize_error_message` can return. -/
def sanitized_messages : List String :=
  [msg_quota, msg_timeout, msg_space, msg_queue, msg_network, msg_generic]

/-- The coarse-cause chain of `sanitize_error_message`, over the already
lowered error text, in the source's order, falling back to the generic
message. -/
def classify_lowered (e : String) : String :=
  if strContains e "gpu quota" || strContains e "exceeded" then msg_quota
  else if strContains e "timeout" || strContains e "timed out" then msg_timeout
  else if strContains e "space" && (strContains e "sleeping" || strContains e "unavailable") then
    msg_space
  else if strContains e "queue" || strContains e "busy" then msg_queue
  else if strContains e "network" || strContains e "connection" then msg_network
  else msg_generic

/-- `sanitize_error_message`: the coarse-cause chain applied to the lowered
`str(error)`. -/
def sanitize_error_message (error : String) : String :=
  classify_lowered (lowerString error)

/-! ## Backend client handles and the generate endpoint (routers/models.py). -/

/-- Modelled from the spec: the Backend Client Pool handles the router reads
(`hf_service.shap_e_client` for mode `basic`, `hf_service.trellis_client` for
mode `advanced`).  The service version exposing a Shap-E handle is not under
`src/` — the `HuggingFaceService` in `src/backend/services/huggingface_service.py`
only declares `trellis_client` — so, per the spec, each named strategy owns an
opaque, possibly-absent handle and callers must branch on absence. -/
structure HFService where
  shap_e_client : Option Unit
  trellis_client : Option Unit
deriving DecidableEq, Repr

/-- Outcome of the dispatched backend call (`await asyncio.to_thread(gen_func, ...)`):
a GLB path, a raised `RuntimeError`, or any other raised exception, each carrying
`str(e)`. -/
inductive CallOutcome where
  | ok (glbPath : String)
  | runtimeError (msg : String)
  | unexpectedError (msg : String)
deriving DecidableEq, Repr

/-- Result of the generate endpoint: the success payload of
`GenerationResponse`, or an `HTTPException`-style status code and detail. -/
inductive HttpResult where
  | success (model_id download_url message : String)
  | error (statusCode : Nat) (detail : String)
deriving DecidableEq, Repr

/-- Detail of the 503 raised by `get_hf_service` when the global service is
absent. -/
def hf_not_initialized_detail : String :=
  "HuggingFaceService not initialized. Check HF_TOKEN configuration."

/-- Python `f"{x}"` over an optional string (`None` prints as `None`). -/
def pyOptionStr : Option String → String
  | none => "None"
  | some s => s

/-- Detail of the 400 for a bad or missing mode; it interpolates the original
`request.mode`. -/
def invalid_mode_detail (mode : Option String) : String :=
  "Invalid mode: '" ++ pyOptionStr mode ++ "'."

/-- Detail of the 503 raised when the selected strategy's handle is absent
(`f"{mode_name} client not initialized. {mode_name} features are not available."`). -/
def client_not_initialized_detail (modeName : String) : String :=
  modeName ++ " client not initialized. " ++ modeName ++ " features are not available."

/-- `request.mode.lower() if request.mode else None` combined with the
`not mode` falsiness check of line 120-121: the empty string is falsy. -/
def modeLowerOf : Option String → Option String
  | some s => if s = "" then none else some (lowerString s)
  | none => none

/-- The body of `generate_model` (routers/models.py lines 104-184), given the
value the router reads as `request.mode`.  Modelled from the spec for that
read alone: the request schema carrying `mode` is not under `src/`
(`PromptRequest` in `schemas/models.py` has no such field, see
`generate_endpoint`); the spec's §6 body is `{ prompt, mode }`.  Everything
else follows the source: service-absence check, mode validation (`lower()`
applied when the value is truthy), record creation, per-mode handle check
raising 503 and re-raised as-is, then the call outcome — success attaches the
file and completes the record, a `RuntimeError` maps to 503 and any other
exception to 500, both after marking the record failed and sanitizing the
message. -/
def generate_model_body (hf : Option HFService) (store : Store) (prompt : String)
    (mode : Option String) (newId : String) (outcome : CallOutcome) :
    Store × HttpResult :=
  match hf with
  | none => (store, .error 503 hf_not_initialized_detail)
  | some svc =>
    let modeLower := modeLowerOf mode
    if modeLower ≠ some "basic" ∧ modeLower ≠ some "advanced" then
      (store, .error 400 (invalid_mode_detail mode))
    else
      let store1 := create_model_record store newId prompt
      let modeName := if modeLower = some "basic" then "Shap-E" else "TRELLIS"
      let handle := if modeLower = some "basic" then svc.shap_e_client else svc.trellis_client
      if handle.isNone then
        (store1, .error 503 (client_not_initialized_detail modeName))
      else
        match outcome with
        | .ok glbPath =>
            let store2 := set_model_file store1 newId glbPath "glb"
            let store3 := update_model_status store2 newId "completed"
            (store3, .success newId ("/api/models/download/" ++ newId)
              ("3D model generated successfully using "
                ++ pyOptionStr modeLower ++ " mode"))
        | .runtimeError msg =>
            (update_model_status store1 newId "failed",
             .error 503 (sanitize_error_message msg))
        | .unexpectedError msg =>
            (update_model_status store1 newId "failed",
             .error 500 (sanitize_error_message msg))

/-- The request schema of `schemas/models.py`: `PromptRequest` declares only
`prompt`. -/
structure PromptRequest where
  prompt : String
deriving DecidableEq, Repr

/-- The detail of the framework's default internal-error response. -/
def internal_server_error_detail : String := "Internal Server Error"

/-- The composed `POST /api/models/generate` endpoint over the schema actually
under `src/`: after `get_hf_service`, the router reads `request.mode`
(routers/models.py line 120), but `PromptRequest` has no `mode` field, so the
read raises `AttributeError` outside the endpoint's `try` block; the framework
turns the uncaught exception into a plain 500 response.  The store is returned
unchanged because the failure precedes `create_model_record`. -/
def generate_endpoint (hf : Option HFService) (store : Store) (_req : PromptRequest) :
    Store × HttpResult :=
  match hf with
  | none => (store, .error 503 hf_not_initialized_detail)
  | some _ => (store, .error 500 internal_server_error_detail)

/-! ## Download endpoint and cleanup (routers/models.py, lines 85-100 and 187-253). -/

/-- `MODEL_STORAGE_PATH` (config.py default `"./models"`). -/
def MODEL_STORAGE_PATH : String := "./models"

/-- `Path(MODEL_STORAGE_PATH) / f"{model_id}.glb"`: where both `text_to_3d`
and `download_model` place/find the artifact of a record id. -/
def glb_storage_path (model_id : String) : String :=
  MODEL_STORAGE_PATH ++ "/" ++ model_id ++ ".glb"

/-- Outcome of `normalize_materials_for_ar` on the file: it either returns or
raises a `RuntimeError` carrying `str(e)`. -/
inductive NormalizeOutcome where
  | ok
  | fails (msg : String)
deriving DecidableEq, Repr

/-- Result of the download endpoint: the served binary file (content type and
attachment filename of the response headers) or a status code and detail. -/
inductive DownloadResult where
  | file (contentType filename : String)
  | error (statusCode : Nat) (detail : String)
deriving DecidableEq, Repr

/-- Detail prefix of the 500 raised when preparing/serving the GLB fails:
`f"Failed to prepare/serve GLB file: {str(e)}"`. -/
def download_failure_detail_head : String := "Failed to prepare/serve GLB file: "

/-- `cleanup_model_file`: unlink the path when it exists, only log otherwise;
a deletion error is swallowed.  The artifact directory is a list of existing
paths. -/
def cleanup_model_file (fileSystem : List String) (glbPath : String) : List String :=
  if glbPath ∈ fileSystem then fileSystem.erase glbPath else fileSystem

/-- `download_model` (routers/models.py lines 187-253): after `get_hf_service`,
derive the path from the id alone — the record store is never consulted, which
is why the store parameter is unused — 404 when the file is absent, then
normalize materials (a failure is caught and becomes a 500 whose detail embeds
`str(e)`), serve the bytes and schedule `cleanup_model_file` to run after the
response.  The returned list is the artifact directory after the background
cleanup. -/
def download_model (hf : Option HFService) (_store : Store) (fileSystem : List String)
    (model_id : String) (norm : NormalizeOutcome) : DownloadResult × List String :=
  match hf with
  | none => (.error 503 hf_not_initialized_detail, fileSystem)
  | some _ =>
    let glbPath := glb_storage_path model_id
    if glbPath ∈ fileSystem then
      match norm with
      | .fails msg => (.error 500 (download_failure_detail_head ++ msg), fileSystem)
      | .ok =>
          (.file "model/gltf-binary" (model_id ++ ".glb"),
           cleanup_model_file fileSystem glbPath)
    else
      (.error 404 "Model file not found", fileSystem)

/-! ## TRELLIS result normalization (services/huggingface_service.py,
`text_to_3d` lines 111-165). -/

/-- A value held by the gradio result where the code only cares whether it is
a string. -/
inductive GradioLeaf where
  | str (s : String)
  | nonStr
deriving DecidableEq, Repr

/-- The loosely-typed value `trellis_client.predict` may return: a plain
string, a mapping, a list/tuple, or anything else. -/
inductive GradioResult where
  | str (s : String)
  | dict (entries : List (String × GradioLeaf))
  | listv (items : List GradioLeaf)
  | otherv
deriving DecidableEq, Repr

/-- `result["value"]`-style lookup on the modelled mapping. -/
def dictLookup (entries : List (String × GradioLeaf)) (key : String) : Option GradioLeaf :=
  (entries.find? (fun p => p.1 == key)).map (·.2)

/-- Outcome of the shape-normalization step. -/
inductive ShapeResult where
  | path (p : String)
  | shapeError (msg : String)
deriving DecidableEq, Repr

/-- Error raised at line 121 for a result shape matching neither branch
(`f"Unexpected TRELLIS result format: {type(result)}"`, abstracted of the
type name it interpolates). -/
def unexpected_format_detail : String := "Unexpected TRELLIS result format"

/-- Error raised at line 124 when the extracted value is falsy or not a
string. -/
def invalid_path_detail : String := "TRELLIS returned invalid file path"

/-- Lines 111-126 of `text_to_3d`: a plain string is used directly; a mapping
is consulted for its `value` key only; every other shape — lists and tuples
included — raises the unexpected-format error; a falsy or non-string value
raises the invalid-path error. -/
def extract_glb_file_path : GradioResult → ShapeResult
  | .str s => if s = "" then .shapeError invalid_path_detail else .path s
  | .dict entries =>
      match dictLookup entries "value" with
      | some (.str s) => if s = "" then .shapeError invalid_path_detail else .path s
      | some .nonStr => .shapeError invalid_path_detail
      | none => .shapeError unexpected_format_detail
  | .listv _ => .shapeError unexpected_format_detail
  | .otherv => .shapeError unexpected_format_detail

/-- `glb_file_path.startswith("http://") or glb_file_path.startswith("https://")`. -/
def is_remote_url (s : String) : Bool :=
  charsAgree "http://".toList s.toList || charsAgree "https://".toList s.toList

/-- Outcome of the bounded-timeout `httpx` fetch of a remote URL. -/
inductive FetchOutcome where
  | ok
  | fetchError (msg : String)
deriving DecidableEq, Repr

/-- Add a path to the artifact directory (writing a file that already exists
leaves one copy). -/
def addFile (fileSystem : List String) (path : String) : List String :=
  if path ∈ fileSystem then fileSystem else fileSystem ++ [path]

/-- Lines 111-165 of `text_to_3d`: normalize the result shape, then persist —
a remote URL is fetched and its bytes written under
`storage_path / f"{model_id}.glb"`; a local path must exist and is copied
(`shutil.copy`, so the source file remains) to the same destination.  Errors
are the `RuntimeError` messages of the source (the enclosing handler at line
211 re-wraps them as `f"3D model generation failed: {e}"` before they reach
the router). -/
def text_to_3d_result_handling (fileSystem : List String) (model_id : String)
    (result : GradioResult) (fetch : FetchOutcome) :
    Except String (String × List String) :=
  match extract_glb_file_path result with
  | .shapeError msg => .error msg
  | .path p =>
      let dest := glb_storage_path model_id
      if is_remote_url p then
        match fetch with
        | .ok => .ok (dest, addFile fileSystem dest)
        | .fetchError msg => .error ("Failed to download GLB from TRELLIS URL: " ++ msg)
      else
        if p ∈ fileSystem then .ok (dest, addFile fileSystem dest)
        else .error ("Generated GLB file not found: " ++ p
               ++ ". TRELLIS may have failed to generate the model.")

/-! ## Derived definitions used by the claim statements -/

/-- The fixed detail strings a generate-flow error can carry besides the
invalid-mode 400: the service-not-initialized 503, the two
client-not-initialized 503s, and the six sanitized messages. -/
def generate_error_details : List String :=
  hf_not_initialized_detail :: client_not_initialized_detail "Shap-E" ::
    client_not_initialized_detail "TRELLIS" :: sanitized_messages

/-- Standard channel shapes: the base-color list, when present, has at least
three entries (the `len(base_color) >= 3` guard of the source), and likewise
the emissive list. -/
def standardShapes (m : Material) : Bool :=
  (match getBaseColor m with
   | some l => decide (3 ≤ l.length)
   | none => true) &&
  (match m.emissiveFactor with
   | some l => decide (3 ≤ l.length)
   | none => true)

/-- All RGB channels of the base color (the alpha entry is never modified by
the normalizer) are at most one, and all emissive channels are at most the
configured maximum glow. -/
def boundedChannels (m : Material) : Bool :=
  (match getBaseColor m with
   | some l => (l.take 3).all (fun c => decide (c ≤ 1))
   | none => true) &&
  (match m.emissiveFactor with
   | some l => (l.take 3).all (fun c => decide (c ≤ emissive_max))
   | none => true)

/-- A half-gray material: metallic and roughness 0.5, base color
`[0.5, 0.5, 0.5, 1.0]`, no emissive factor.  Repeated normalization of this
material exhibits the non-idempotent color boost. -/
def half_gray_pbr : PbrMetallicRoughness :=
  { metallicFactor := some (1/2), roughnessFactor := some (1/2),
    baseColorFactor := some [1/2, 1/2, 1/2, 1], baseColorTexture := none }

/-- The material wrapping `half_gray_pbr`. -/
def half_gray_material : Material :=
  { pbrMetallicRoughness := some half_gray_pbr, emissiveFactor := none }

/-- `half_gray_material` after one normalization: metallic clamped, roughness
raised, base color boosted to 0.75, emissive set to the base glow. -/
def half_gray_step1 : Material :=
  { pbrMetallicRoughness :=
      some { metallicFactor := some 0, roughnessFactor := some (9/10),
             baseColorFactor := some [3/4, 3/4, 3/4, 1], baseColorTexture := none }
    emissiveFactor := some [3/10, 3/10, 3/10] }

/-- `half_gray_material` after two normalizations: the base color and the
emissive factor have reached their clamps, making this a fixed point of
normalization. -/
def half_gray_step2 : Material :=
  { pbrMetallicRoughness :=
      some { metallicFactor := some 0, roughnessFactor := some (9/10),
             baseColorFactor := some [1, 1, 1, 1], baseColorTexture := none }
    emissiveFactor := some [1/2, 1/2, 1/2] }

/-! ## Claim theorems -/

/-- C10: the structure-verification diagnostic is total and error-swallowing —
whenever the scene library is unavailable or loading/inspecting the file fails,
`_verify_glb_structure` returns `(False, {})` instead of propagating an
exception (totality over every outcome is given by `verify_glb_structure`
being a function on `GlbLoadResult`). -/
theorem c10_verify_error_swallowing :
    verify_glb_structure .noLib = (false, none) ∧
    (∀ msg, verify_glb_structure (.loadError msg) = (false, none)) ∧
    (∀ r : GlbLoadResult, (∀ g, r ≠ .ok g) → verify_glb_structure r = (false, none)) := by
  refine ⟨rfl, fun _ => rfl, fun r h => ?_⟩
  cases r with
  | noLib => rfl
  | loadError msg => rfl
  | ok g => exact absurd rfl (h g)

/-- C10 witness: a concrete failed load yields `(False, {})`. -/
theorem c10_witness :
    verify_glb_structure (.loadError "scene parse failed") = (false, none) :=
  c10_verify_error_swallowing.2.2 (.loadError "scene parse failed") (fun _ h => by cases h)

/-- C8: `has_textures` holds exactly when both the texture count and the count
of materials referencing a base-color texture are positive; injecting the
fallback basic material into a scene with no materials still does not verify as
textured, because that material carries no `baseColorTexture`. -/
theorem c8_textured_requires_linked_texture :
    (∀ g : GltfDoc, verifyHasTextures g = true ↔
        0 < g.textures ∧ 0 < materials_with_textures g) ∧
    (∀ g : GltfDoc, g.materials = [] →
        verifyHasTextures (add_basic_material g) = false) := by
  constructor
  · intro g
    simp [verifyHasTextures]
  · intro g h
    simp [verifyHasTextures, add_basic_material, materials_with_textures, h,
      materialHasTexture, basic_material]

/-- C8 witness: a scene with three textures, no materials and one mesh still
fails the diagnostic after fallback injection. -/
theorem c8_witness :
    verifyHasTextures (add_basic_material
      { images := 0, textures := 3, accessors := 1, materials := [],
        meshes := [{ primitives := [{ color0 := none, material := none }] }] }) = false :=
  c8_textured_requires_linked_texture.2 _ rfl

/-- C4 (code bug): the actual `/generate` endpoint over the schema under
`src/` rejects nothing with 400 — `PromptRequest` has no `mode` field, so
`request.mode` raises `AttributeError` and the framework answers 500; an empty
prompt is likewise never validated.  The failure does occur before any record
is created: the store is unchanged. -/
theorem c4_schema_mismatch_eval :
    generate_endpoint (some { shap_e_client := some (), trellis_client := some () })
        [] { prompt := "" }
      = ([], .error 500 internal_server_error_detail) ∧
    internal_server_error_detail ≠ "Invalid mode: 'None'." := by
  exact ⟨rfl, by decide⟩

/-- C1 (code bug): a generate request for mode `advanced` whose TRELLIS handle
is absent creates the record and then raises the 503 through the
`except HTTPException: raise` arm, which never marks the record failed — the
call returns with the record still in `processing`. -/
theorem c1_stuck_processing_eval :
    generate_model_body (some { shap_e_client := some (), trellis_client := none })
        [] "horse" (some "advanced") "rec-1" (.ok "unused")
      = ([("rec-1", { prompt := "horse", status := "processing",
                      file_path := none, available_formats := [] })],
         .error 503 (client_not_initialized_detail "TRELLIS")) ∧
    (get_model (generate_model_body
        (some { shap_e_client := some (), trellis_client := none })
        [] "horse" (some "advanced") "rec-1" (.ok "unused")).1 "rec-1").map
          (fun r => r.status) = some "processing" := by
  constructor
  · rfl
  · rfl

/-- C5 counterexample: a list result whose first element is a valid existing
path, and a mapping keyed `path`, are both rejected with the
unexpected-format error — the normalizer does not try the list/tuple shape or
the `path`/`name`/`file` keys the claim lists. -/
theorem c5_counterexample :
    text_to_3d_result_handling ["/tmp/out.glb"] "rec1"
        (.listv [.str "/tmp/out.glb"]) .ok
      = .error unexpected_format_detail ∧
    text_to_3d_result_handling ["/tmp/out.glb"] "rec1"
        (.dict [("path", .str "/tmp/out.glb")]) .ok
      = .error unexpected_format_detail := by
  constructor
  · rfl
  · rfl

/-- C6 counterexample: a material with no pbrMetallicRoughness block has an
absent base color, and one application of normalization leaves it absent
instead of setting it to opaque white. -/
theorem c6_counterexample :
    getBaseColor { pbrMetallicRoughness := none, emissiveFactor := none } = none ∧
    getBaseColor (normalizeMaterial
        { pbrMetallicRoughness := none, emissiveFactor := none }) ≠
      some [1, 1, 1, 1] := by
  constructor
  · rfl
  · decide

/-- C9 counterexample: with no record in the registry but the backing file
present, the download endpoint serves the file — it never consults the record
store — where the claim requires a 404 whenever the record is absent. -/
theorem c9_counterexample :
    get_model [] "ghost" = none ∧
    (download_model (some { shap_e_client := none, trellis_client := some () })
        [] [glb_storage_path "ghost"] "ghost" .ok).1
      = .file "model/gltf-binary" "ghost.glb" := by
  constructor
  · rfl
  · rfl

/-- C2 counterexample: a post-processing failure on download produces a 500
whose detail embeds the raw exception text — it is not one of the sanitized
messages and contains the backend message verbatim. -/
theorem c2_counterexample :
    (download_model (some { shap_e_client := none, trellis_client := some () })
        [] [glb_storage_path "m1"] "m1"
        (.fails "GPU quota exceeded for space dkatz2391")).1
      = .error 500
          "Failed to prepare/serve GLB file: GPU quota exceeded for space dkatz2391" ∧
    "Failed to prepare/serve GLB file: GPU quota exceeded for space dkatz2391"
      ∉ sanitized_messages ∧
    strContains
      "Failed to prepare/serve GLB file: GPU quota exceeded for space dkatz2391"
      "GPU quota exceeded for space dkatz2391" = true := by
  refine ⟨rfl, by decide, by decide⟩

/-- C6 (amended): after one application of normalization, every material that
carries a pbrMetallicRoughness block satisfies the claimed postconditions —
metallic clamped to the target exactly when it exceeded the threshold,
roughness (when present) at least the minimum, absent base color set to
opaque white and a present `[r, g, b, a]` base color boosted channel-wise
with alpha untouched, absent emissive set to the base glow and a present
`[x, y, z]` emissive raised channel-wise up to the maximum.  (Materials
without a pbr block keep their base color absent: see the counterexample.) -/
theorem c6_normalization_postconditions (m : Material) (pbr : PbrMetallicRoughness)
    (hp : m.pbrMetallicRoughness = some pbr) :
    (∀ v, pbr.metallicFactor = some v →
        getMetallic (normalizeMaterial m)
          = some (if v > metallic_threshold then metallic_target else v)) ∧
    (∀ v, pbr.roughnessFactor = some v →
        ∃ w, getRoughness (normalizeMaterial m) = some w ∧ roughness_min ≤ w) ∧
    (pbr.baseColorFactor = none →
        getBaseColor (normalizeMaterial m) = some [1, 1, 1, 1]) ∧
    (∀ r g b a, pbr.baseColorFactor = some [r, g, b, a] →
        getBaseColor (normalizeMaterial m)
          = some [min 1 (r * base_color_boost), min 1 (g * base_color_boost),
                  min 1 (b * base_color_boost), a]) ∧
    (m.emissiveFactor = none →
        (normalizeMaterial m).emissiveFactor
          = some [emissive_base, emissive_base, emissive_base]) ∧
    (∀ x y z, m.emissiveFactor = some [x, y, z] →
        (normalizeMaterial m).emissiveFactor
          = some [min emissive_max (x + emissive_base),
                  min emissive_max (y + emissive_base),
                  min emissive_max (z + emissive_base)]) := by
  refine ⟨?_, ?_, ?_, ?_, ?_, ?_⟩
  · intro v hv
    simp [getMetallic, normalizeMaterial, normalizePbr, hp, hv]
  · intro v hv
    by_cases h : v < roughness_min
    · exact ⟨max v roughness_min,
        by simp [getRoughness, normalizeMaterial, normalizePbr, hp, hv, h],
        le_max_right _ _⟩
    · exact ⟨v,
        by simp [getRoughness, normalizeMaterial, normalizePbr, hp, hv, h],
        not_lt.mp h⟩
  · intro hb
    simp [getBaseColor, normalizeMaterial, normalizePbr, hp, hb]
  · intro r g b a hb
    simp [getBaseColor, normalizeMaterial, normalizePbr, hp, hb, boostBaseColor]
  · intro he
    simp [normalizeMaterial, he]
  · intro x y z he
    simp [normalizeMaterial, he, boostEmissive]

/-- C6 witness: the postconditions applied to the half-gray material — its
base color is boosted to `[0.75, 0.75, 0.75, 1.0]`. -/
theorem c6_witness :
    getBaseColor (normalizeMaterial half_gray_material) = some [3/4, 3/4, 3/4, 1] := by
  have h := (c6_normalization_postconditions half_gray_material half_gray_pbr
    rfl).2.2.2.1 (1/2) (1/2) (1/2) 1 rfl
  rw [h]
  norm_num [base_color_boost, min_def]


/-- After boosting, a base color of standard shape has four entries and its
RGB channels are clamped at one. -/
theorem boostBaseColor_bounds (bc : List ℚ) (h : 3 ≤ bc.length) :
    (boostBaseColor bc).length = 4 ∧
    ((boostBaseColor bc).take 3).all (fun c => decide (c ≤ 1)) = true := by
  rcases bc with _ | ⟨r, _ | ⟨g, _ | ⟨b, rest⟩⟩⟩ <;> simp at h <;>
    simp [boostBaseColor, min_le_left]

/-- After boosting, an emissive factor of standard shape has three entries,
all clamped at the configured maximum. -/
theorem boostEmissive_bounds (e : List ℚ) (h : 3 ≤ e.length) :
    (boostEmissive e).length = 3 ∧
    ((boostEmissive e).take 3).all (fun c => decide (c ≤ emissive_max)) = true := by
  rcases e with _ | ⟨x, _ | ⟨y, _ | ⟨z, rest⟩⟩⟩ <;> simp at h <;>
    simp [boostEmissive, min_le_left]

/-- One normalization step preserves the standard shapes and establishes the
channel bounds: base-color RGB channels never exceed one and emissive channels
never exceed the maximum glow. -/
theorem normalizeMaterial_shapes_and_bounds (m : Material)
    (h : standardShapes m = true) :
    standardShapes (normalizeMaterial m) = true ∧
    boundedChannels (normalizeMaterial m) = true := by
  obtain ⟨p, e⟩ := m
  rcases p with _ | ⟨mf, rf, bc, tex⟩
  · rcases e with _ | el
    · constructor <;>
        norm_num [standardShapes, boundedChannels, getBaseColor, normalizeMaterial,
          emissive_base, emissive_max]
    · have hel : 3 ≤ el.length := by
        simpa [standardShapes, getBaseColor] using h
      have B := boostEmissive_bounds el hel
      constructor
      · simp [standardShapes, getBaseColor, normalizeMaterial, B.1]
      · simp [boundedChannels, getBaseColor, normalizeMaterial, B.2]
  · rcases bc with _ | bcl
    · rcases e with _ | el
      · constructor <;>
          norm_num [standardShapes, boundedChannels, getBaseColor, normalizeMaterial,
            normalizePbr, emissive_base, emissive_max]
      · have hel : 3 ≤ el.length := by
          simpa [standardShapes, getBaseColor] using h
        have B := boostEmissive_bounds el hel
        constructor
        · simp [standardShapes, getBaseColor, normalizeMaterial, normalizePbr, B.1]
        · simp [boundedChannels, getBaseColor, normalizeMaterial, normalizePbr, B.2]
    · rcases e with _ | el
      · have hbl : 3 ≤ bcl.length := by
          simpa [standardShapes, getBaseColor] using h
        have B := boostBaseColor_bounds bcl hbl
        constructor
        · simp [standardShapes, getBaseColor, normalizeMaterial, normalizePbr, B.1]
        · norm_num [boundedChannels, getBaseColor, normalizeMaterial, normalizePbr,
            B.2, emissive_base, emissive_max]
      · have hb : 3 ≤ bcl.length ∧ 3 ≤ el.length := by
          simpa [standardShapes, getBaseColor] using h
        have B1 := boostBaseColor_bounds bcl hb.1
        have B2 := boostEmissive_bounds el hb.2
        constructor
        · simp [standardShapes, getBaseColor, normalizeMaterial, normalizePbr,
            B1.1, B2.1]
        · simp [boundedChannels, getBaseColor, normalizeMaterial, normalizePbr,
            B1.2, B2.2]

/-- Normalization preserves the standard shapes through any number of
iterations. -/
theorem iterate_standardShapes (m : Material) (h : standardShapes m = true) :
    ∀ n, standardShapes (normalizeMaterial^[n] m) = true := by
  intro n
  induction n with
  | zero => simpa using h
  | succ k ih =>
      rw [Function.iterate_succ_apply']
      exact (normalizeMaterial_shapes_and_bounds _ ih).1

/-- First normalization step of the half-gray material, computed. -/
theorem half_gray_step1_eq : normalizeMaterial half_gray_material = half_gray_step1 := by
  norm_num [normalizeMaterial, normalizePbr, boostBaseColor, half_gray_material,
    half_gray_pbr, half_gray_step1, metallic_threshold, metallic_target,
    roughness_min, base_color_boost, emissive_base, min_def, max_def]

/-- Second normalization step of the half-gray material, computed. -/
theorem half_gray_step2_eq : normalizeMaterial half_gray_step1 = half_gray_step2 := by
  norm_num [normalizeMaterial, normalizePbr, boostBaseColor, boostEmissive,
    half_gray_step1, half_gray_step2, metallic_threshold, metallic_target,
    roughness_min, base_color_boost, emissive_base, emissive_max, min_def, max_def]

/-- The clamped material is a fixed point of normalization. -/
theorem half_gray_fixed : normalizeMaterial half_gray_step2 = half_gray_step2 := by
  norm_num [normalizeMaterial, normalizePbr, boostBaseColor, boostEmissive,
    half_gray_step2, metallic_threshold, metallic_target, roughness_min,
    base_color_boost, emissive_base, emissive_max, min_def, max_def]

/-- C7: normalization is not idempotent — on the half-gray material the second
application still changes the state (the color boost keeps scaling toward the
clamp) while the third application changes nothing more (the channels have
saturated); and under repeated application (any positive number of
iterations of a standard-shaped material) no base-color RGB channel ever
exceeds 1.0 and no emissive channel ever exceeds 0.5. -/
theorem c7_non_idempotent_but_clamped :
    normalizeMaterial^[2] half_gray_material
      ≠ normalizeMaterial^[1] half_gray_material ∧
    normalizeMaterial^[3] half_gray_material
      = normalizeMaterial^[2] half_gray_material ∧
    (∀ m : Material, standardShapes m = true → ∀ n : ℕ, 1 ≤ n →
        boundedChannels (normalizeMaterial^[n] m) = true) := by
  refine ⟨?_, ?_, ?_⟩
  · show normalizeMaterial (normalizeMaterial half_gray_material)
      ≠ normalizeMaterial half_gray_material
    rw [half_gray_step1_eq, half_gray_step2_eq]
    norm_num [half_gray_step1, half_gray_step2]
  · show normalizeMaterial (normalizeMaterial (normalizeMaterial half_gray_material))
      = normalizeMaterial (normalizeMaterial half_gray_material)
    rw [half_gray_step1_eq, half_gray_step2_eq, half_gray_fixed]
  · intro m h n hn
    obtain ⟨k, rfl⟩ : ∃ k, n = k + 1 := ⟨n - 1, (Nat.succ_pred_eq_of_pos hn).symm⟩
    rw [Function.iterate_succ_apply']
    exact (normalizeMaterial_shapes_and_bounds _ (iterate_standardShapes m h k)).2

/-- C7 witness: the bound holds for the half-gray material after two
iterations. -/
theorem c7_witness :
    boundedChannels (normalizeMaterial^[2] half_gray_material) = true :=
  c7_non_idempotent_but_clamped.2.2 half_gray_material rfl 2 (by norm_num)

/-- The classifier always answers with one of the six sanitized messages,
whatever the error text. -/
theorem classify_lowered_mem (e : String) : classify_lowered e ∈ sanitized_messages := by
  unfold classify_lowered
  repeat' split
  all_goals simp [sanitized_messages]

/-- The sanitized messages are among the fixed generate-flow details. -/
theorem sanitized_mem_generate_details {d : String} (h : d ∈ sanitized_messages) :
    d ∈ generate_error_details :=
  List.mem_cons_of_mem _ (List.mem_cons_of_mem _ (List.mem_cons_of_mem _ h))

/-- C3: a generate request whose mode names a configured strategy (`basic` or
`advanced`, case-insensitively) while that strategy's handle is absent is
rejected with a 503 and the client-not-initialized detail — not a generic 500
and not a crash — leaving the store with just the freshly created record. -/
theorem c3_absent_handle_503 :
    (∀ (svc : HFService) (store : Store) (prompt : String) (mode : Option String)
        (newId : String) (outcome : CallOutcome),
        modeLowerOf mode = some "basic" → svc.shap_e_client = none →
        generate_model_body (some svc) store prompt mode newId outcome
          = (create_model_record store newId prompt,
             .error 503 (client_not_initialized_detail "Shap-E"))) ∧
    (∀ (svc : HFService) (store : Store) (prompt : String) (mode : Option String)
        (newId : String) (outcome : CallOutcome),
        modeLowerOf mode = some "advanced" → svc.trellis_client = none →
        generate_model_body (some svc) store prompt mode newId outcome
          = (create_model_record store newId prompt,
             .error 503 (client_not_initialized_detail "TRELLIS"))) := by
  constructor <;> intro svc store prompt mode newId outcome hmode habsent <;>
    simp [generate_model_body, hmode, habsent]

/-- C3 witness: a concrete `advanced` request with the TRELLIS handle absent. -/
theorem c3_witness :
    generate_model_body (some { shap_e_client := some (), trellis_client := none })
        [] "horse" (some "Advanced") "id-7" (.runtimeError "boom")
      = (create_model_record [] "id-7" "horse",
         .error 503 (client_not_initialized_detail "TRELLIS")) :=
  c3_absent_handle_503.2 _ _ _ _ _ _ (by rfl) rfl

/-- C2 (amended): every error detail of the generate flow is either one of the
nine fixed messages of `generate_error_details` or the 400 invalid-mode
message (which embeds the client-supplied mode string, not backend exception
text); backend exception text entering the generate flow is always replaced by
one of the six sanitized messages; the download endpoint's 500 detail, by
contrast, embeds `str(e)` verbatim (see the counterexample). -/
theorem c2_sanitized_details :
    (∀ e, sanitize_error_message e ∈ sanitized_messages) ∧
    (∀ (hf : Option HFService) (store : Store) (prompt : String) (mode : Option String)
        (newId : String) (outcome : CallOutcome) (c : Nat) (d : String),
        (generate_model_body hf store prompt mode newId outcome).2 = .error c d →
        d ∈ generate_error_details ∨ d = invalid_mode_detail mode) ∧
    (∀ (svc : HFService) (store : Store) (fs : List String) (id msg : String),
        glb_storage_path id ∈ fs →
        (download_model (some svc) store fs id (.fails msg)).1
          = .error 500 (download_failure_detail_head ++ msg)) := by
  refine ⟨?_, ?_, ?_⟩
  · intro e
    exact classify_lowered_mem (lowerString e)
  · intro hf store prompt mode newId outcome c d h
    cases hf with
    | none =>
        simp only [generate_model_body] at h
        cases h
        left
        simp [generate_error_details]
    | some svc =>
        simp only [generate_model_body] at h
        split at h
        · cases h
          right
          rfl
        · split at h
          · split at h
            · cases h
              left
              simp [generate_error_details]
            · cases outcome with
              | ok p => simp at h
              | runtimeError msg =>
                  cases h
                  left
                  exact sanitized_mem_generate_details (classify_lowered_mem _)
              | unexpectedError msg =>
                  cases h
                  left
                  exact sanitized_mem_generate_details (classify_lowered_mem _)
          · split at h
            · cases h
              left
              simp [generate_error_details]
            · cases outcome with
              | ok p => simp at h
              | runtimeError msg =>
                  cases h
                  left
                  exact sanitized_mem_generate_details (classify_lowered_mem _)
              | unexpectedError msg =>
                  cases h
                  left
                  exact sanitized_mem_generate_details (classify_lowered_mem _)
  · intro svc store fs id msg hmem
    simp [download_model, hmem]

/-- C2 witness: a concrete RuntimeError during generation surfaces as the
sanitized timeout message, a member of the fixed detail set. -/
theorem c2_witness :
    msg_timeout ∈ generate_error_details ∨
      msg_timeout = invalid_mode_detail (some "basic") :=
  c2_sanitized_details.2.1 (some { shap_e_client := some (), trellis_client := some () })
    [] "chair" (some "basic") "id9" (.runtimeError "Read timed out") 503 msg_timeout rfl

/-- C5 (amended): the normalizer accepts exactly two shapes — a plain string
first (used directly, a falsy value rejected), then a mapping consulted only
for its `value` key — and raises the clear unexpected-format error on every
other shape, lists/tuples and mappings without `value` included; once a path
is extracted, a remote URL (http/https prefix) is fetched and persisted under
`storage_path/<record id>.glb` (a fetch failure raising a clear error), and a
local path must already exist and is copied — not moved, the source stays in
place — to the same destination, a missing path raising the not-found
error. -/
theorem c5_normalizer_behavior :
    (∀ s : String, s ≠ "" → extract_glb_file_path (.str s) = .path s) ∧
    (∀ (entries : List (String × GradioLeaf)) (s : String),
        dictLookup entries "value" = some (.str s) → s ≠ "" →
        extract_glb_file_path (.dict entries) = .path s) ∧
    (∀ items, extract_glb_file_path (.listv items)
        = .shapeError unexpected_format_detail) ∧
    (∀ entries, dictLookup entries "value" = none →
        extract_glb_file_path (.dict entries) = .shapeError unexpected_format_detail) ∧
    extract_glb_file_path .otherv = .shapeError unexpected_format_detail ∧
    (∀ (fs : List String) (id : String) (r : GradioResult) (p : String),
        extract_glb_file_path r = .path p → is_remote_url p = true →
        text_to_3d_result_handling fs id r .ok
          = .ok (glb_storage_path id, addFile fs (glb_storage_path id))) ∧
    (∀ (fs : List String) (id : String) (r : GradioResult) (p msg : String),
        extract_glb_file_path r = .path p → is_remote_url p = true →
        text_to_3d_result_handling fs id r (.fetchError msg)
          = .error ("Failed to download GLB from TRELLIS URL: " ++ msg)) ∧
    (∀ (fs : List String) (id : String) (r : GradioResult) (p : String)
        (fetch : FetchOutcome),
        extract_glb_file_path r = .path p → is_remote_url p = false → p ∈ fs →
        text_to_3d_result_handling fs id r fetch
          = .ok (glb_storage_path id, addFile fs (glb_storage_path id)) ∧
        p ∈ addFile fs (glb_storage_path id)) ∧
    (∀ (fs : List String) (id : String) (r : GradioResult) (p : String)
        (fetch : FetchOutcome),
        extract_glb_file_path r = .path p → is_remote_url p = false → p ∉ fs →
        text_to_3d_result_handling fs id r fetch
          = .error ("Generated GLB file not found: " ++ p
              ++ ". TRELLIS may have failed to generate the model.")) := by
  refine ⟨?_, ?_, ?_, ?_, rfl, ?_, ?_, ?_, ?_⟩
  · intro s h
    simp [extract_glb_file_path, h]
  · intro entries s hl h
    simp [extract_glb_file_path, hl, h]
  · intro items
    rfl
  · intro entries hl
    simp [extract_glb_file_path, hl]
  · intro fs id r p he hurl
    simp [text_to_3d_result_handling, he, hurl]
  · intro fs id r p msg he hurl
    simp [text_to_3d_result_handling, he, hurl]
  · intro fs id r p fetch he hurl hmem
    refine ⟨by simp [text_to_3d_result_handling, he, hurl, hmem], ?_⟩
    by_cases hdest : glb_storage_path id ∈ fs
    · simpa [addFile, hdest] using hmem
    · simp [addFile, hdest, hmem]
  · intro fs id r p fetch he hurl hmem
    simp [text_to_3d_result_handling, he, hurl, hmem]

/-- C5 witness: a string result holding an existing local path is copied into
managed storage under the record id. -/
theorem c5_witness :
    text_to_3d_result_handling ["/tmp/out.glb"] "rec1" (.str "/tmp/out.glb") .ok
      = .ok (glb_storage_path "rec1", addFile ["/tmp/out.glb"] (glb_storage_path "rec1")) :=
  (c5_normalizer_behavior.2.2.2.2.2.2.2.1 ["/tmp/out.glb"] "rec1" (.str "/tmp/out.glb")
    "/tmp/out.glb" .ok rfl rfl (by simp)).1

/-- C9 (amended): with the service present, the download endpoint answers 404
exactly when the backing file is absent — the record store is never consulted
(see the counterexample for the record-absent/file-present state) — and a
second download of the same id after the background cleanup has deleted the
file is again a 404, not a crash (the endpoint is a total function). -/
theorem c9_amended_404_iff_missing :
    (∀ (svc : HFService) (store : Store) (fs : List String) (id : String)
        (norm : NormalizeOutcome),
        (download_model (some svc) store fs id norm).1
            = .error 404 "Model file not found"
          ↔ glb_storage_path id ∉ fs) ∧
    (∀ (svc : HFService) (store : Store) (fs : List String) (id : String),
        glb_storage_path id ∈ fs → fs.Nodup →
        glb_storage_path id ∉ (download_model (some svc) store fs id .ok).2 ∧
        (download_model (some svc) store ((download_model (some svc) store fs id .ok).2)
            id .ok).1 = .error 404 "Model file not found") := by
  constructor
  · intro svc store fs id norm
    by_cases hmem : glb_storage_path id ∈ fs
    · cases norm with
      | ok => simp [download_model, hmem]
      | fails msg => simp [download_model, hmem]
    · simp [download_model, hmem]
  · intro svc store fs id hmem hnodup
    have h2 : (download_model (some svc) store fs id .ok).2
        = fs.erase (glb_storage_path id) := by
      simp [download_model, hmem, cleanup_model_file]
    rw [h2]
    have hout : glb_storage_path id ∉ fs.erase (glb_storage_path id) := by
      intro hx
      exact absurd ((List.Nodup.mem_erase_iff hnodup).mp hx).1 (by simp)
    exact ⟨hout, by simp [download_model, hout]⟩

/-- C9 witness: downloading `m42` a second time after cleanup has removed its
file yields the 404. -/
theorem c9_witness :
    (download_model (some { shap_e_client := none, trellis_client := some () }) []
        ((download_model (some { shap_e_client := none, trellis_client := some () }) []
            [glb_storage_path "m42"] "m42" .ok).2) "m42" .ok).1
      = .error 404 "Model file not found" :=
  (c9_amended_404_iff_missing.2 { shap_e_client := none, trellis_client := some () } []
    [glb_storage_path "m42"] "m42" (by simp) (by simp)).2
